import Mathlib

/- Shallow embedding of the PoolTogether v5 draw-auction bot
   (packages/library/src/drawAuction.ts together with the earlier variant kept
   in src/unnamed/part_000). USD amounts (JavaScript numbers in the source)
   are rationals, ethers BigNumber quantities are naturals, and the network
   collaborators (gas estimator, fee-conversion oracle, gas-price feed) are
   explicit functional parameters fixed for a cycle. -/

/-- USD amounts and market rates, modelled as rationals. -/
abbrev Usd : Type := ℚ

/-- Ethers BigNumber quantities (wei, gas units, token base units). -/
abbrev BigNum : Type := ℕ

/-- Positional argument of an ethers contract call. -/
inductive CallArg where
  | str : String → CallArg
  | num : BigNum → CallArg
  deriving DecidableEq, Repr

/-- Shape of an ethers contract call: function name, positional arguments in
Object.values order, and the native-token value attached via overrides. -/
structure ContractCall where
  functionName : String
  args : List CallArg
  value : Option BigNum
  deriving DecidableEq, Repr

/-- Fields of DrawAuctionConfig (types.ts) consumed by the decision logic. -/
structure DrawAuctionConfig where
  chainId : ℕ
  rewardRecipient : String
  minProfitThresholdUsd : Usd
  useFlashbots : Bool

/-- Contract addresses resolved by instantiateDrawAuctionContracts. -/
structure DrawAuctionContracts where
  prizePoolAddress : String
  drawManagerAddress : String
  rngWitnetAddress : Option String
  rngBlockhashAddress : Option String

/-- DrawAuctionState enum from utils/getDrawAuctionContextMulticall; the
part_000 variant names the second constructor Award instead of Finish. -/
inductive DrawAuctionState where
  | Start
  | Finish
  deriving DecidableEq, Repr

/-- Gas limit buffer constant, drawAuction.ts line 44. -/
def DRAW_GAS_LIMIT_BUFFER : ℕ := 100000

/-- Maximum acceptable forced-relay loss in USD, part_000 line 38. -/
def MAX_FORCE_RELAY_LOSS_THRESHOLD_USD : Usd := -5

/-- Fee-conversion oracle: the avgFeeUsd field returned by getFeesUsd (utils)
as a function of the gas limit it is handed; chain id, native-token rate,
provider and call data are fixed for the cycle and absorbed into the
function. -/
abbrev FeeOracle : Type := ℕ → Usd

/-- Function getGasCostUsd, textually identical in both source variants: it
returns 0 when the estimated gas limit is undefined (estimation threw and the
catch left it unset, modelled as none) or equals zero, and otherwise returns
the avgFeeUsd produced by the fee oracle for that gas limit. -/
def getGasCostUsd (feesUsd : FeeOracle) (estimatedGasLimit : Option ℕ) : Usd :=
  match estimatedGasLimit with
  | none => 0
  | some g => if g = 0 then 0 else feesUsd g

/-- Outcome of one of the check functions: the body can raise (an undefined
gas estimate flowing into BigNumber.add), return early without dispatching
(gas cost zero), or reach a dispatch decision. -/
inductive CheckOutcome (α : Type) where
  | threw : CheckOutcome α
  | exited : CheckOutcome α
  | decided : α → CheckOutcome α
  deriving DecidableEq, Repr

/-- Transaction handed to the submission collaborator sendPopulatedTx. -/
structure SubmittedTx where
  call : ContractCall
  gasLimit : ℕ
  gasPrice : ℕ
  useFlashbots : Bool
  deriving DecidableEq, Repr

/-- Summary of the externally visible effects of one runDrawAuction cycle. -/
structure CycleResult where
  estimationRequested : Bool
  dispatched : Bool
  threw : Bool
  deriving DecidableEq, Repr

namespace DrawAuctionTs

/-- DrawAuctionContext fields used by the drawAuction.ts variant. -/
structure DrawAuctionContext where
  nativeTokenMarketRateUsd : Usd
  canStartDraw : Bool
  startDrawReward : BigNum
  startDrawRewardUsd : Usd
  canFinishDraw : Bool
  finishDrawReward : BigNum
  finishDrawRewardUsd : Usd
  rngFeeEstimate : BigNum
  rngFeeEstimateUsd : Usd
  prizePoolDrawClosesAt : ℕ
  drawAuctionState : Option DrawAuctionState

/-- Type RngWitnetStartDrawTxParams, field order as declared and built. -/
structure RngWitnetStartDrawTxParams where
  rngPaymentAmount : BigNum
  drawManagerAddress : String
  rewardRecipient : String
  value : BigNum
  deriving DecidableEq, Repr

/-- Type FinishDrawTxParams. -/
structure FinishDrawTxParams where
  rewardRecipient : String
  deriving DecidableEq, Repr

/-- The rng-witnet startDraw params with the value key removed, as produced
by the delete on the spread copy inside the transform function. -/
structure TransformedStartDrawTxParams where
  rngPaymentAmount : BigNum
  drawManagerAddress : String
  rewardRecipient : String
  deriving DecidableEq, Repr

/-- Type StartDrawTransformedTxParams. -/
structure StartDrawTransformedTxParams where
  transformedTxParams : TransformedStartDrawTxParams
  value : BigNum
  deriving DecidableEq, Repr

/-- Function transformRngWitnetStartDrawTxParams (drawAuction.ts lines
810-819): spread-copies the input, reads off value, deletes value on the
copy; the input record itself is untouched, which the embedding renders by
building a fresh record from the input fields. -/
def transformRngWitnetStartDrawTxParams (txParams : RngWitnetStartDrawTxParams) :
    StartDrawTransformedTxParams :=
  { transformedTxParams :=
      { rngPaymentAmount := txParams.rngPaymentAmount
        drawManagerAddress := txParams.drawManagerAddress
        rewardRecipient := txParams.rewardRecipient }
    value := txParams.value }

/-- Function buildRngWitnetStartDrawTxParams (drawAuction.ts lines 621-632). -/
def buildRngWitnetStartDrawTxParams (config : DrawAuctionConfig)
    (context : DrawAuctionContext) (contracts : DrawAuctionContracts) :
    RngWitnetStartDrawTxParams :=
  { rngPaymentAmount := context.rngFeeEstimate
    drawManagerAddress := contracts.drawManagerAddress
    rewardRecipient := config.rewardRecipient
    value := context.rngFeeEstimate }

/-- Function buildFinishDrawTxParams (drawAuction.ts lines 641-645). -/
def buildFinishDrawTxParams (config : DrawAuctionConfig) : FinishDrawTxParams :=
  { rewardRecipient := config.rewardRecipient }

/-- The call handed to contract.estimateGas by
getRngWitnetStartDrawEstimatedGasLimit (lines 295-315): startDraw with the
transformed params spread in Object.values order and the split-off value
attached as an override. -/
def rngWitnetStartDrawEstimateCall (txParams : RngWitnetStartDrawTxParams) :
    ContractCall :=
  let t := transformRngWitnetStartDrawTxParams txParams
  { functionName := "startDraw"
    args := [CallArg.num t.transformedTxParams.rngPaymentAmount,
             CallArg.str t.transformedTxParams.drawManagerAddress,
             CallArg.str t.transformedTxParams.rewardRecipient]
    value := some t.value }

/-- The startDraw call populated and later sent by
sendPopulatedStartDrawTransaction on the RngWitnet branch (lines 192-208). -/
def rngWitnetStartDrawSentCall (txParams : RngWitnetStartDrawTxParams) :
    ContractCall :=
  let t := transformRngWitnetStartDrawTxParams txParams
  { functionName := "startDraw"
    args := [CallArg.num t.transformedTxParams.rngPaymentAmount,
             CallArg.str t.transformedTxParams.drawManagerAddress,
             CallArg.str t.transformedTxParams.rewardRecipient]
    value := some t.value }

/-- The call handed to contract.estimateGas by getFinishDrawEstimatedGasLimit
(line 349): the source invokes estimateGas.startDraw with the finishDraw
params spread into it. -/
def finishDrawEstimateCall (txParams : FinishDrawTxParams) : ContractCall :=
  { functionName := "startDraw"
    args := [CallArg.str txParams.rewardRecipient]
    value := none }

/-- The finishDraw call populated and sent (lines 670-672 and 772). -/
def finishDrawSentCall (txParams : FinishDrawTxParams) : ContractCall :=
  { functionName := "finishDraw"
    args := [CallArg.str txParams.rewardRecipient]
    value := none }

/-- Function calculateStartDrawProfit (drawAuction.ts lines 369-409). -/
def calculateStartDrawProfit (config : DrawAuctionConfig)
    (context : DrawAuctionContext) (gasCostUsd : Usd) : Bool :=
  let grossProfitUsd := context.startDrawRewardUsd
  let netProfitUsd := grossProfitUsd - gasCostUsd - context.rngFeeEstimateUsd
  decide (netProfitUsd > config.minProfitThresholdUsd)

/-- Result record of calculateFinishDrawProfit. -/
structure FinishDrawProfitResult where
  netProfitUsd : Usd
  profitable : Bool
  deriving Repr

/-- Function calculateFinishDrawProfit (drawAuction.ts lines 423-461). -/
def calculateFinishDrawProfit (config : DrawAuctionConfig)
    (rewardUsd gasCostUsd : Usd) : FinishDrawProfitResult :=
  let grossProfitUsd := rewardUsd
  let netProfitUsd := grossProfitUsd - gasCostUsd
  { netProfitUsd := netProfitUsd
    profitable := decide (netProfitUsd > config.minProfitThresholdUsd) }

/-- Function getStartDrawGasCostUsd (drawAuction.ts lines 540-592). The gas
estimator result is a parameter: some g when estimateGas succeeded, none when
it threw and the catch inside the estimator returned undefined. On none the
subsequent estimatedGasLimit.add(DRAW_GAS_LIMIT_BUFFER) raises a TypeError,
modelled as none; on some g the buffer is added before getGasCostUsd runs. -/
def getStartDrawGasCostUsd (startDrawEstimate : Option ℕ) (feesUsd : FeeOracle) :
    Option Usd :=
  match startDrawEstimate with
  | none => none
  | some g => some (getGasCostUsd feesUsd (some (g + DRAW_GAS_LIMIT_BUFFER)))

/-- Function getFinishDrawGasCostUsd (drawAuction.ts lines 657-685), with the
same buffer-then-convert shape as the start path. -/
def getFinishDrawGasCostUsd (finishDrawEstimate : Option ℕ) (feesUsd : FeeOracle) :
    Option Usd :=
  match finishDrawEstimate with
  | none => none
  | some g => some (getGasCostUsd feesUsd (some (g + DRAW_GAS_LIMIT_BUFFER)))

/-- Dispatch decision reached by checkStartDraw past its guards. -/
structure StartDrawDecision where
  gasCostUsd : Usd
  profitable : Bool
  dispatched : Bool
  deriving DecidableEq, Repr

/-- Function checkStartDraw (drawAuction.ts lines 145-166): abort on a zero
gas cost, otherwise dispatch exactly when profitable. -/
def checkStartDraw (startDrawEstimate : Option ℕ) (feesUsd : FeeOracle)
    (config : DrawAuctionConfig) (context : DrawAuctionContext) :
    CheckOutcome StartDrawDecision :=
  match getStartDrawGasCostUsd startDrawEstimate feesUsd with
  | none => CheckOutcome.threw
  | some gasCostUsd =>
    if gasCostUsd = 0 then CheckOutcome.exited
    else
      let profitable := calculateStartDrawProfit config context gasCostUsd
      CheckOutcome.decided
        { gasCostUsd := gasCostUsd, profitable := profitable,
          dispatched := profitable }

/-- Dispatch decision reached by checkFinishDraw past its guards. -/
structure FinishDrawDecision where
  netProfitUsd : Usd
  profitable : Bool
  dispatched : Bool
  deriving DecidableEq, Repr

/-- Function checkFinishDraw (drawAuction.ts lines 259-288). -/
def checkFinishDraw (finishDrawEstimate : Option ℕ) (feesUsd : FeeOracle)
    (config : DrawAuctionConfig) (context : DrawAuctionContext) :
    CheckOutcome FinishDrawDecision :=
  match getFinishDrawGasCostUsd finishDrawEstimate feesUsd with
  | none => CheckOutcome.threw
  | some gasCostUsd =>
    if gasCostUsd = 0 then CheckOutcome.exited
    else
      let r := calculateFinishDrawProfit config context.finishDrawRewardUsd gasCostUsd
      CheckOutcome.decided
        { netProfitUsd := r.netProfitUsd, profitable := r.profitable,
          dispatched := r.profitable }

/-- Function sendPopulatedStartDrawTransaction, RngWitnet branch (lines
177-248): populates startDraw from the transformed params and submits it with
gas limit Number(estimatedGasLimit) + 100000 (line 225). -/
def sendPopulatedStartDrawTransaction (estimatedGasLimit : ℕ) (gasPrice : ℕ)
    (config : DrawAuctionConfig) (context : DrawAuctionContext)
    (contracts : DrawAuctionContracts) : SubmittedTx :=
  let txParams := buildRngWitnetStartDrawTxParams config context contracts
  { call := rngWitnetStartDrawSentCall txParams
    gasLimit := estimatedGasLimit + 100000
    gasPrice := gasPrice
    useFlashbots := config.useFlashbots }

/-- Function sendPopulatedFinishDrawTransaction (lines 750-789): submits the
populated finishDraw with gas limit Number(estimatedGasLimit) +
DRAW_GAS_LIMIT_BUFFER (lines 763-764) and a hard-coded false flashbots flag. -/
def sendPopulatedFinishDrawTransaction (estimatedGasLimit : ℕ) (gasPrice : ℕ)
    (config : DrawAuctionConfig) : SubmittedTx :=
  let txParams := buildFinishDrawTxParams config
  { call := finishDrawSentCall txParams
    gasLimit := estimatedGasLimit + DRAW_GAS_LIMIT_BUFFER
    gasPrice := gasPrice
    useFlashbots := false }

/-- Function runDrawAuction (drawAuction.ts lines 52-82): early return when
drawAuctionState is unset, otherwise run the Start or Finish check, each of
which begins by requesting a gas estimate inside its gas-cost computation. -/
def runDrawAuction (startDrawEstimate finishDrawEstimate : Option ℕ)
    (feesUsd : FeeOracle) (config : DrawAuctionConfig)
    (context : DrawAuctionContext) : CycleResult :=
  match context.drawAuctionState with
  | none => { estimationRequested := false, dispatched := false, threw := false }
  | some DrawAuctionState.Start =>
    match checkStartDraw startDrawEstimate feesUsd config context with
    | CheckOutcome.threw =>
      { estimationRequested := true, dispatched := false, threw := true }
    | CheckOutcome.exited =>
      { estimationRequested := true, dispatched := false, threw := false }
    | CheckOutcome.decided d =>
      { estimationRequested := true, dispatched := d.dispatched, threw := false }
  | some DrawAuctionState.Finish =>
    match checkFinishDraw finishDrawEstimate feesUsd config context with
    | CheckOutcome.threw =>
      { estimationRequested := true, dispatched := false, threw := true }
    | CheckOutcome.exited =>
      { estimationRequested := true, dispatched := false, threw := false }
    | CheckOutcome.decided d =>
      { estimationRequested := true, dispatched := d.dispatched, threw := false }

end DrawAuctionTs

namespace PartZero

/-- DrawAuctionContext fields used by the part_000 variant. -/
structure DrawAuctionContext where
  nativeTokenMarketRateUsd : Usd
  canStartDraw : Bool
  startDrawFee : BigNum
  startDrawFeeUsd : Usd
  canAwardDraw : Bool
  awardDrawFee : BigNum
  awardDrawFeeUsd : Usd
  rngFeeEstimate : BigNum
  rngFeeEstimateUsd : Usd
  auctionClosesSoon : Bool
  prizePoolDrawClosesAt : ℕ
  drawAuctionState : Option DrawAuctionState

/-- Type StartDrawTxParams (part_000 lines 23-27). -/
structure StartDrawTxParams where
  drawManagerAddress : String
  rewardRecipient : String
  value : BigNum
  deriving DecidableEq, Repr

/-- Type AwardDrawTxParams (part_000 lines 29-31). -/
structure AwardDrawTxParams where
  rewardRecipient : String
  deriving DecidableEq, Repr

/-- The startDraw params with the value key removed by the transform. -/
structure TransformedStartDrawTxParams where
  drawManagerAddress : String
  rewardRecipient : String
  deriving DecidableEq, Repr

/-- Type StartDrawTransformedTxParams (part_000 lines 33-36). -/
structure StartDrawTransformedTxParams where
  transformedTxParams : TransformedStartDrawTxParams
  value : BigNum
  deriving DecidableEq, Repr

/-- Function transformStartDrawTxParams (part_000 lines 730-737): reads off
value and deletes it on a spread copy, leaving the input record untouched. -/
def transformStartDrawTxParams (txParams : StartDrawTxParams) :
    StartDrawTransformedTxParams :=
  { transformedTxParams :=
      { drawManagerAddress := txParams.drawManagerAddress
        rewardRecipient := txParams.rewardRecipient }
    value := txParams.value }

/-- Function buildStartDrawTxParams (part_000 lines 553-563): the attached
value is rngFeeEstimate.mul(2). -/
def buildStartDrawTxParams (config : DrawAuctionConfig)
    (context : DrawAuctionContext) (contracts : DrawAuctionContracts) :
    StartDrawTxParams :=
  { drawManagerAddress := contracts.drawManagerAddress
    rewardRecipient := config.rewardRecipient
    value := context.rngFeeEstimate * 2 }

/-- Function buildAwardDrawTxParams (part_000 lines 572-576). -/
def buildAwardDrawTxParams (config : DrawAuctionConfig) : AwardDrawTxParams :=
  { rewardRecipient := config.rewardRecipient }

/-- The call handed to contract.estimateGas by getStartDrawEstimatedGasLimit
(part_000 lines 294-314): startDraw with the transformed params and the
split-off value attached. -/
def startDrawEstimateCall (txParams : StartDrawTxParams) : ContractCall :=
  let t := transformStartDrawTxParams txParams
  { functionName := "startDraw"
    args := [CallArg.str t.transformedTxParams.drawManagerAddress,
             CallArg.str t.transformedTxParams.rewardRecipient]
    value := some t.value }

/-- The startDraw call populated and sent by sendPopulatedStartDrawTransaction
(part_000 lines 167-178). -/
def startDrawSentCall (txParams : StartDrawTxParams) : ContractCall :=
  let t := transformStartDrawTxParams txParams
  { functionName := "startDraw"
    args := [CallArg.str t.transformedTxParams.drawManagerAddress,
             CallArg.str t.transformedTxParams.rewardRecipient]
    value := some t.value }

/-- The awardDraw call populated and sent (part_000 line 691). -/
def awardDrawSentCall (txParams : AwardDrawTxParams) : ContractCall :=
  { functionName := "awardDraw"
    args := [CallArg.str txParams.rewardRecipient]
    value := none }

/-- Function calculateStartDrawProfit (part_000 lines 328-368). -/
def calculateStartDrawProfit (config : DrawAuctionConfig)
    (context : DrawAuctionContext) (gasCostUsd : Usd) : Bool :=
  let grossProfitUsd := context.startDrawFeeUsd
  let netProfitUsd := grossProfitUsd - gasCostUsd - context.rngFeeEstimateUsd
  decide (netProfitUsd > config.minProfitThresholdUsd)

/-- Result record of calculateAwardDrawProfit. -/
structure AwardDrawProfitResult where
  netProfitUsd : Usd
  profitable : Bool
  deriving Repr

/-- Function calculateAwardDrawProfit (part_000 lines 382-420). -/
def calculateAwardDrawProfit (config : DrawAuctionConfig)
    (rewardUsd gasCostUsd : Usd) : AwardDrawProfitResult :=
  let grossProfitUsd := rewardUsd
  let netProfitUsd := grossProfitUsd - gasCostUsd
  { netProfitUsd := netProfitUsd
    profitable := decide (netProfitUsd > config.minProfitThresholdUsd) }

/-- Function checkForceAwardDraw (part_000 lines 263-287): the commented-out
recipient-matching check is absent from the returned conjunction. -/
def checkForceAwardDraw (config : DrawAuctionConfig)
    (context : DrawAuctionContext) (netProfitUsd : Usd) : Bool :=
  let lossOkay := decide (netProfitUsd > MAX_FORCE_RELAY_LOSS_THRESHOLD_USD)
  context.auctionClosesSoon && lossOkay

/-- Function getStartDrawGasCostUsd (part_000 lines 507-542): passes the raw
estimator result (possibly undefined) straight to getGasCostUsd, no buffer. -/
def getStartDrawGasCostUsd (startDrawEstimate : Option ℕ) (feesUsd : FeeOracle) :
    Usd :=
  getGasCostUsd feesUsd startDrawEstimate

/-- Function getAwardDrawGasCostUsd (part_000 lines 588-614): uses the
hard-coded estimate BigNumber.from(400000) and never calls estimateGas. -/
def getAwardDrawGasCostUsd (feesUsd : FeeOracle) : Usd :=
  getGasCostUsd feesUsd (some 400000)

/-- Dispatch decision reached by checkStartDraw past its guard. -/
structure StartDrawDecision where
  gasCostUsd : Usd
  profitable : Bool
  dispatched : Bool
  deriving DecidableEq, Repr

/-- Function checkStartDraw (part_000 lines 124-145). -/
def checkStartDraw (startDrawEstimate : Option ℕ) (feesUsd : FeeOracle)
    (config : DrawAuctionConfig) (context : DrawAuctionContext) :
    CheckOutcome StartDrawDecision :=
  let gasCostUsd := getStartDrawGasCostUsd startDrawEstimate feesUsd
  if gasCostUsd = 0 then CheckOutcome.exited
  else
    let profitable := calculateStartDrawProfit config context gasCostUsd
    CheckOutcome.decided
      { gasCostUsd := gasCostUsd, profitable := profitable,
        dispatched := profitable }

/-- Dispatch decision reached by checkAwardDraw past its guard. -/
structure AwardDrawDecision where
  netProfitUsd : Usd
  profitable : Bool
  forceAwardDraw : Bool
  dispatched : Bool
  deriving DecidableEq, Repr

/-- Function checkAwardDraw (part_000 lines 215-250): abort on a zero gas
cost, otherwise dispatch when profitable or when the force override fires. -/
def checkAwardDraw (feesUsd : FeeOracle) (config : DrawAuctionConfig)
    (context : DrawAuctionContext) : CheckOutcome AwardDrawDecision :=
  let gasCostUsd := getAwardDrawGasCostUsd feesUsd
  if gasCostUsd = 0 then CheckOutcome.exited
  else
    let r := calculateAwardDrawProfit config context.awardDrawFeeUsd gasCostUsd
    let forceAwardDraw := checkForceAwardDraw config context r.netProfitUsd
    CheckOutcome.decided
      { netProfitUsd := r.netProfitUsd, profitable := r.profitable,
        forceAwardDraw := forceAwardDraw,
        dispatched := r.profitable || forceAwardDraw }

/-- Function sendPopulatedStartDrawTransaction (part_000 lines 156-204):
submits the populated startDraw with the fixed gas limit 850000 (line 188). -/
def sendPopulatedStartDrawTransaction (gasPrice : ℕ) (config : DrawAuctionConfig)
    (context : DrawAuctionContext) (contracts : DrawAuctionContracts) :
    SubmittedTx :=
  let txParams := buildStartDrawTxParams config context contracts
  { call := startDrawSentCall txParams
    gasLimit := 850000
    gasPrice := gasPrice
    useFlashbots := config.useFlashbots }

/-- Function sendPopulatedAwardDrawTransaction (part_000 lines 679-709):
submits the populated awardDraw with the fixed gas limit 800000 (line 693)
and a hard-coded false flashbots flag. -/
def sendPopulatedAwardDrawTransaction (gasPrice : ℕ) (config : DrawAuctionConfig) :
    SubmittedTx :=
  let txParams := buildAwardDrawTxParams config
  { call := awardDrawSentCall txParams
    gasLimit := 800000
    gasPrice := gasPrice
    useFlashbots := false }

/-- Function runDrawAuction (part_000 lines 46-74). The award branch performs
no estimateGas request (its gas figure is hard-coded), hence
estimationRequested is false there. The part_000 enum names the second state
Award; the shared embedding calls it Finish. -/
def runDrawAuction (startDrawEstimate : Option ℕ) (feesUsd : FeeOracle)
    (config : DrawAuctionConfig) (context : DrawAuctionContext) : CycleResult :=
  match context.drawAuctionState with
  | none => { estimationRequested := false, dispatched := false, threw := false }
  | some DrawAuctionState.Start =>
    match checkStartDraw startDrawEstimate feesUsd config context with
    | CheckOutcome.threw =>
      { estimationRequested := true, dispatched := false, threw := true }
    | CheckOutcome.exited =>
      { estimationRequested := true, dispatched := false, threw := false }
    | CheckOutcome.decided d =>
      { estimationRequested := true, dispatched := d.dispatched, threw := false }
  | some DrawAuctionState.Finish =>
    match checkAwardDraw feesUsd config context with
    | CheckOutcome.threw =>
      { estimationRequested := false, dispatched := false, threw := true }
    | CheckOutcome.exited =>
      { estimationRequested := false, dispatched := false, threw := false }
    | CheckOutcome.decided d =>
      { estimationRequested := false, dispatched := d.dispatched, threw := false }

end PartZero

/-- Modelled from the spec: the Auction Phase Classifier lives in
utils/getDrawAuctionContextMulticall, which is not among the provided source
files. Spec section 4.2 gives the rule in priority order: phaseOneEligible
maps to PhaseOne, else phaseTwoEligible maps to PhaseTwo, else None. -/
def classify (phaseOneEligible phaseTwoEligible : Bool) :
    Option DrawAuctionState :=
  if phaseOneEligible then some DrawAuctionState.Start
  else if phaseTwoEligible then some DrawAuctionState.Finish
  else none

/-- C1: the phase-one evaluator computes netProfitUsd as the phase-one reward
minus the gas cost minus the rng fee estimate, the phase-two evaluator
computes it as the phase-two reward minus the gas cost, and in both phases
profitable holds exactly when netProfitUsd strictly exceeds the configured
minProfitThresholdUsd, so a net profit equal to the threshold yields
profitable = false. -/
theorem profit_formula_strict_threshold (config : DrawAuctionConfig)
    (context : DrawAuctionTs.DrawAuctionContext) (rewardUsd gasCostUsd : Usd) :
    (DrawAuctionTs.calculateStartDrawProfit config context gasCostUsd = true ↔
      context.startDrawRewardUsd - gasCostUsd - context.rngFeeEstimateUsd >
        config.minProfitThresholdUsd)
    ∧ (DrawAuctionTs.calculateFinishDrawProfit config rewardUsd gasCostUsd).netProfitUsd
        = rewardUsd - gasCostUsd
    ∧ ((DrawAuctionTs.calculateFinishDrawProfit config rewardUsd gasCostUsd).profitable
          = true ↔ rewardUsd - gasCostUsd > config.minProfitThresholdUsd)
    ∧ (context.startDrawRewardUsd - gasCostUsd - context.rngFeeEstimateUsd =
          config.minProfitThresholdUsd →
        DrawAuctionTs.calculateStartDrawProfit config context gasCostUsd = false)
    ∧ (rewardUsd - gasCostUsd = config.minProfitThresholdUsd →
        (DrawAuctionTs.calculateFinishDrawProfit config rewardUsd gasCostUsd).profitable
          = false) := by
  refine ⟨?_, rfl, ?_, ?_, ?_⟩
  · simp [DrawAuctionTs.calculateStartDrawProfit]
  · simp [DrawAuctionTs.calculateFinishDrawProfit]
  · intro h
    simp [DrawAuctionTs.calculateStartDrawProfit, h]
  · intro h
    simp [DrawAuctionTs.calculateFinishDrawProfit, h]

/-- C1 witness: with threshold 1 USD, reward 6 USD, rng fee 2 USD and gas
cost 3 USD the net profit is exactly the threshold and the evaluator rejects. -/
theorem profit_formula_strict_threshold_witness :
    DrawAuctionTs.calculateStartDrawProfit
      { chainId := 10, rewardRecipient := "0xaaaa",
        minProfitThresholdUsd := 1, useFlashbots := false }
      { nativeTokenMarketRateUsd := 2500, canStartDraw := true,
        startDrawReward := 0, startDrawRewardUsd := 6, canFinishDraw := false,
        finishDrawReward := 0, finishDrawRewardUsd := 0, rngFeeEstimate := 0,
        rngFeeEstimateUsd := 2, prizePoolDrawClosesAt := 0,
        drawAuctionState := some DrawAuctionState.Start } 3 = false := by
  have h := profit_formula_strict_threshold
    { chainId := 10, rewardRecipient := "0xaaaa",
      minProfitThresholdUsd := 1, useFlashbots := false }
    { nativeTokenMarketRateUsd := 2500, canStartDraw := true,
      startDrawReward := 0, startDrawRewardUsd := 6, canFinishDraw := false,
      finishDrawReward := 0, finishDrawRewardUsd := 0, rngFeeEstimate := 0,
      rngFeeEstimateUsd := 2, prizePoolDrawClosesAt := 0,
      drawAuctionState := some DrawAuctionState.Start } 0 3
  exact h.2.2.2.1 (by norm_num)

/-- C2: past the zero-gas-cost guard, the award-draw force flag holds exactly
when auctionClosesSoon holds and the net profit strictly exceeds minus five
USD; the dispatch flag equals profitable OR forced, so it never fires when
both are false and the force flag alone can carry a dispatch with profitable
false; in the drawAuction.ts finish path, which has no force override,
dispatch equals profitable. -/
theorem award_dispatch_policy :
    (∀ (feesUsd : FeeOracle) (config : DrawAuctionConfig)
        (context : PartZero.DrawAuctionContext) (d : PartZero.AwardDrawDecision),
      PartZero.checkAwardDraw feesUsd config context = CheckOutcome.decided d →
        ((d.forceAwardDraw = true ↔
            (context.auctionClosesSoon = true ∧ d.netProfitUsd > -5))
          ∧ d.dispatched = (d.profitable || d.forceAwardDraw)
          ∧ (d.profitable = false → d.forceAwardDraw = false →
              d.dispatched = false)))
    ∧ (∃ (feesUsd : FeeOracle) (config : DrawAuctionConfig)
          (context : PartZero.DrawAuctionContext)
          (d : PartZero.AwardDrawDecision),
        PartZero.checkAwardDraw feesUsd config context = CheckOutcome.decided d
          ∧ d.profitable = false ∧ d.forceAwardDraw = true
          ∧ d.dispatched = true)
    ∧ (∀ (finishDrawEstimate : Option ℕ) (feesUsd : FeeOracle)
        (config : DrawAuctionConfig) (context : DrawAuctionTs.DrawAuctionContext)
        (d : DrawAuctionTs.FinishDrawDecision),
      DrawAuctionTs.checkFinishDraw finishDrawEstimate feesUsd config context =
          CheckOutcome.decided d → d.dispatched = d.profitable) := by
  refine ⟨?_, ?_, ?_⟩
  · intro feesUsd config context d h
    simp only [PartZero.checkAwardDraw] at h
    split at h
    · exact absurd h (by simp)
    · simp only [CheckOutcome.decided.injEq] at h
      subst h
      refine ⟨?_, rfl, ?_⟩
      · simp [PartZero.checkForceAwardDraw, PartZero.calculateAwardDrawProfit,
          MAX_FORCE_RELAY_LOSS_THRESHOLD_USD]
      · intro hp hf
        simp_all
  · refine ⟨fun _ => 4,
      { chainId := 10, rewardRecipient := "0xaaaa",
        minProfitThresholdUsd := 1, useFlashbots := false },
      { nativeTokenMarketRateUsd := 2500, canStartDraw := false,
        startDrawFee := 0, startDrawFeeUsd := 0, canAwardDraw := true,
        awardDrawFee := 0, awardDrawFeeUsd := 1, rngFeeEstimate := 0,
        rngFeeEstimateUsd := 0, auctionClosesSoon := true,
        prizePoolDrawClosesAt := 0,
        drawAuctionState := some DrawAuctionState.Finish },
      { netProfitUsd := -3, profitable := false, forceAwardDraw := true,
        dispatched := true }, ?_, rfl, rfl, rfl⟩
    simp only [PartZero.checkAwardDraw, PartZero.getAwardDrawGasCostUsd,
      getGasCostUsd, PartZero.calculateAwardDrawProfit,
      PartZero.checkForceAwardDraw, MAX_FORCE_RELAY_LOSS_THRESHOLD_USD,
      CheckOutcome.decided.injEq, PartZero.AwardDrawDecision.mk.injEq]
    norm_num
  · intro finishDrawEstimate feesUsd config context d h
    simp only [DrawAuctionTs.checkFinishDraw] at h
    split at h
    · exact absurd h (by simp)
    · split at h
      · exact absurd h (by simp)
      · simp only [CheckOutcome.decided.injEq] at h
        subst h
        rfl

/-- C2 witness: a concrete unprofitable but forced award-draw cycle (reward
one USD, gas cost four USD, threshold one USD, auction closing soon) in which
the dispatch flag equals profitable OR forced, namely true. -/
theorem award_dispatch_policy_witness :
    PartZero.AwardDrawDecision.dispatched
        { netProfitUsd := -3, profitable := false, forceAwardDraw := true,
          dispatched := true } =
      (PartZero.AwardDrawDecision.profitable
          { netProfitUsd := -3, profitable := false, forceAwardDraw := true,
            dispatched := true } ||
        PartZero.AwardDrawDecision.forceAwardDraw
          { netProfitUsd := -3, profitable := false, forceAwardDraw := true,
            dispatched := true }) := by
  have h := award_dispatch_policy.1 (fun _ => 4)
    { chainId := 10, rewardRecipient := "0xaaaa",
      minProfitThresholdUsd := 1, useFlashbots := false }
    { nativeTokenMarketRateUsd := 2500, canStartDraw := false,
      startDrawFee := 0, startDrawFeeUsd := 0, canAwardDraw := true,
      awardDrawFee := 0, awardDrawFeeUsd := 1, rngFeeEstimate := 0,
      rngFeeEstimateUsd := 0, auctionClosesSoon := true,
      prizePoolDrawClosesAt := 0,
      drawAuctionState := some DrawAuctionState.Finish }
    { netProfitUsd := -3, profitable := false, forceAwardDraw := true,
      dispatched := true }
    (by
      simp only [PartZero.checkAwardDraw, PartZero.getAwardDrawGasCostUsd,
        getGasCostUsd, PartZero.calculateAwardDrawProfit,
        PartZero.checkForceAwardDraw, MAX_FORCE_RELAY_LOSS_THRESHOLD_USD,
        CheckOutcome.decided.injEq, PartZero.AwardDrawDecision.mk.injEq]
      norm_num)
  exact h.2.1

/-- C3 (code bug evidence): in the drawAuction.ts start-draw path a zero gas
estimate is not turned into a zero USD cost, because the 100000-gas buffer is
added before the zero guard of getGasCostUsd: with a fee oracle returning one
USD the cost comes back as one USD and checkStartDraw proceeds to dispatch a
100-USD reward; a failed estimate (undefined after the caught exception)
makes estimatedGasLimit.add raise instead of producing zero. The part_000
variant behaves as the claim states: zero or failed estimates give a zero
cost and the cycle exits without dispatch. -/
theorem zero_gas_estimate_not_aborted :
    DrawAuctionTs.getStartDrawGasCostUsd (some 0) (fun _ => 1) = some 1
    ∧ DrawAuctionTs.checkStartDraw (some 0) (fun _ => 1)
        { chainId := 10, rewardRecipient := "0xaaaa",
          minProfitThresholdUsd := 1, useFlashbots := false }
        { nativeTokenMarketRateUsd := 2500, canStartDraw := true,
          startDrawReward := 0, startDrawRewardUsd := 100,
          canFinishDraw := false, finishDrawReward := 0,
          finishDrawRewardUsd := 0, rngFeeEstimate := 0,
          rngFeeEstimateUsd := 0, prizePoolDrawClosesAt := 0,
          drawAuctionState := some DrawAuctionState.Start } =
        CheckOutcome.decided
          { gasCostUsd := 1, profitable := true, dispatched := true }
    ∧ DrawAuctionTs.getStartDrawGasCostUsd none (fun _ => 1) = none
    ∧ PartZero.getStartDrawGasCostUsd (some 0) (fun _ => 1) = 0
    ∧ PartZero.getStartDrawGasCostUsd none (fun _ => 1) = 0
    ∧ PartZero.checkStartDraw (some 0) (fun _ => 1)
        { chainId := 10, rewardRecipient := "0xaaaa",
          minProfitThresholdUsd := 1, useFlashbots := false }
        { nativeTokenMarketRateUsd := 2500, canStartDraw := true,
          startDrawFee := 0, startDrawFeeUsd := 100, canAwardDraw := false,
          awardDrawFee := 0, awardDrawFeeUsd := 0, rngFeeEstimate := 0,
          rngFeeEstimateUsd := 0, auctionClosesSoon := false,
          prizePoolDrawClosesAt := 0,
          drawAuctionState := some DrawAuctionState.Start } =
        CheckOutcome.exited := by
  refine ⟨rfl, ?_, rfl, rfl, rfl, ?_⟩
  · simp only [DrawAuctionTs.checkStartDraw, DrawAuctionTs.getStartDrawGasCostUsd,
      getGasCostUsd, DrawAuctionTs.calculateStartDrawProfit, DRAW_GAS_LIMIT_BUFFER,
      CheckOutcome.decided.injEq, DrawAuctionTs.StartDrawDecision.mk.injEq]
    norm_num
  · simp only [PartZero.checkStartDraw, PartZero.getStartDrawGasCostUsd,
      getGasCostUsd]
    norm_num

/-- C4: when neither phase is eligible the classifier (modelled from spec
section 4.2) yields None, and with drawAuctionState unset both runDrawAuction
variants return immediately: no gas estimation is requested, nothing is
dispatched and no error is raised. -/
theorem no_auction_no_action (startDrawEstimate finishDrawEstimate : Option ℕ)
    (feesUsd : FeeOracle) (config : DrawAuctionConfig)
    (ctxA : DrawAuctionTs.DrawAuctionContext)
    (ctxB : PartZero.DrawAuctionContext)
    (hA : ctxA.drawAuctionState = none) (hB : ctxB.drawAuctionState = none) :
    classify false false = none
    ∧ DrawAuctionTs.runDrawAuction startDrawEstimate finishDrawEstimate
        feesUsd config ctxA =
        { estimationRequested := false, dispatched := false, threw := false }
    ∧ PartZero.runDrawAuction startDrawEstimate feesUsd config ctxB =
        { estimationRequested := false, dispatched := false, threw := false } := by
  refine ⟨rfl, ?_, ?_⟩
  · simp [DrawAuctionTs.runDrawAuction, hA]
  · simp [PartZero.runDrawAuction, hB]

/-- C4 witness: concrete snapshots with no actionable phase produce the
inactive cycle result in both variants. -/
theorem no_auction_no_action_witness :
    DrawAuctionTs.runDrawAuction (some 300000) (some 300000) (fun _ => 1)
      { chainId := 10, rewardRecipient := "0xaaaa",
        minProfitThresholdUsd := 1, useFlashbots := false }
      { nativeTokenMarketRateUsd := 2500, canStartDraw := false,
        startDrawReward := 0, startDrawRewardUsd := 0, canFinishDraw := false,
        finishDrawReward := 0, finishDrawRewardUsd := 0, rngFeeEstimate := 0,
        rngFeeEstimateUsd := 0, prizePoolDrawClosesAt := 0,
        drawAuctionState := none } =
      { estimationRequested := false, dispatched := false, threw := false } := by
  have h := no_auction_no_action (some 300000) (some 300000) (fun _ => 1)
    { chainId := 10, rewardRecipient := "0xaaaa",
      minProfitThresholdUsd := 1, useFlashbots := false }
    { nativeTokenMarketRateUsd := 2500, canStartDraw := false,
      startDrawReward := 0, startDrawRewardUsd := 0, canFinishDraw := false,
      finishDrawReward := 0, finishDrawRewardUsd := 0, rngFeeEstimate := 0,
      rngFeeEstimateUsd := 0, prizePoolDrawClosesAt := 0,
      drawAuctionState := none }
    { nativeTokenMarketRateUsd := 2500, canStartDraw := false,
      startDrawFee := 0, startDrawFeeUsd := 0, canAwardDraw := false,
      awardDrawFee := 0, awardDrawFeeUsd := 0, rngFeeEstimate := 0,
      rngFeeEstimateUsd := 0, auctionClosesSoon := false,
      prizePoolDrawClosesAt := 0, drawAuctionState := none } rfl rfl
  exact h.2.1

/-- C5 counterexample: in drawAuction.ts the gas estimate for the finish-draw
transaction is requested for the startDraw contract function even though the
transaction later sent calls finishDraw with the same parameters, so at this
concrete input the estimated call differs from the sent call. -/
theorem finish_estimate_call_mismatch :
    DrawAuctionTs.finishDrawEstimateCall { rewardRecipient := "0x00aa" } ≠
      DrawAuctionTs.finishDrawSentCall { rewardRecipient := "0x00aa" } := by
  decide

/-- C5 amended: the start-draw paths of both variants estimate gas for
exactly the call later sent (same function name, same arguments, same
attached value); but the drawAuction.ts finish path estimates the startDraw
function with the finishDraw parameters while sending finishDraw, and the
part_000 award path requests no estimate at all, costing a hard-coded
400000-gas figure instead. -/
theorem estimate_call_shapes (pW : DrawAuctionTs.RngWitnetStartDrawTxParams)
    (pS : PartZero.StartDrawTxParams) (pF : DrawAuctionTs.FinishDrawTxParams)
    (feesUsd : FeeOracle) :
    DrawAuctionTs.rngWitnetStartDrawEstimateCall pW =
        DrawAuctionTs.rngWitnetStartDrawSentCall pW
    ∧ PartZero.startDrawEstimateCall pS = PartZero.startDrawSentCall pS
    ∧ (DrawAuctionTs.finishDrawEstimateCall pF).functionName = "startDraw"
    ∧ (DrawAuctionTs.finishDrawSentCall pF).functionName = "finishDraw"
    ∧ (DrawAuctionTs.finishDrawEstimateCall pF).args =
        (DrawAuctionTs.finishDrawSentCall pF).args
    ∧ PartZero.getAwardDrawGasCostUsd feesUsd = feesUsd 400000 := by
  refine ⟨rfl, rfl, rfl, rfl, rfl, ?_⟩
  simp [PartZero.getAwardDrawGasCostUsd, getGasCostUsd]

/-- C6 counterexample: the part_000 start-draw costing consults the fee
oracle at the raw 630000-gas estimate, not at 730000, so no 100000-gas
buffer is added in that variant; its award path likewise costs a fixed
400000 gas whatever the buffer would have been. -/
theorem partZero_no_gas_buffer :
    PartZero.getStartDrawGasCostUsd (some 630000) (fun g => (g : Usd)) = 630000
    ∧ (630000 : Usd) ≠ 730000
    ∧ PartZero.getAwardDrawGasCostUsd (fun g => (g : Usd)) = 400000 := by
  refine ⟨?_, by norm_num, ?_⟩
  · simp [PartZero.getStartDrawGasCostUsd, getGasCostUsd]
  · simp [PartZero.getAwardDrawGasCostUsd, getGasCostUsd]

/-- C6 amended: only the drawAuction.ts variant adds the fixed 100000-gas
buffer on top of a successful estimate before converting to USD, and it does
so in both phases; the part_000 variant adds no buffer, passing the raw
start-draw estimate to the fee conversion and using a fixed 400000 gas for
the award path. -/
theorem gas_buffer_per_variant (g : ℕ) (feesUsd : FeeOracle)
    (est : Option ℕ) :
    DrawAuctionTs.getStartDrawGasCostUsd (some g) feesUsd =
        some (feesUsd (g + DRAW_GAS_LIMIT_BUFFER))
    ∧ DrawAuctionTs.getFinishDrawGasCostUsd (some g) feesUsd =
        some (feesUsd (g + DRAW_GAS_LIMIT_BUFFER))
    ∧ DRAW_GAS_LIMIT_BUFFER = 100000
    ∧ PartZero.getStartDrawGasCostUsd est feesUsd = getGasCostUsd feesUsd est
    ∧ PartZero.getAwardDrawGasCostUsd feesUsd = feesUsd 400000 := by
  refine ⟨?_, ?_, rfl, rfl, ?_⟩
  · simp [DrawAuctionTs.getStartDrawGasCostUsd, getGasCostUsd,
      DRAW_GAS_LIMIT_BUFFER]
  · simp [DrawAuctionTs.getFinishDrawGasCostUsd, getGasCostUsd,
      DRAW_GAS_LIMIT_BUFFER]
  · simp [PartZero.getAwardDrawGasCostUsd, getGasCostUsd]

/-- C7 counterexample: the drawAuction.ts dispatcher does not hand the
submission collaborator a fixed 850000 or 800000 gas limit; it hands the
estimate plus 100000, which differs between two concrete estimates and
matches neither fixed ceiling. -/
theorem send_gas_limit_depends_on_estimate :
    (DrawAuctionTs.sendPopulatedStartDrawTransaction 200000 1
        { chainId := 10, rewardRecipient := "0xaaaa",
          minProfitThresholdUsd := 1, useFlashbots := false }
        { nativeTokenMarketRateUsd := 2500, canStartDraw := true,
          startDrawReward := 0, startDrawRewardUsd := 0, canFinishDraw := false,
          finishDrawReward := 0, finishDrawRewardUsd := 0, rngFeeEstimate := 7,
          rngFeeEstimateUsd := 0, prizePoolDrawClosesAt := 0,
          drawAuctionState := some DrawAuctionState.Start }
        { prizePoolAddress := "0xpp", drawManagerAddress := "0xdm",
          rngWitnetAddress := some "0xrw",
          rngBlockhashAddress := none }).gasLimit = 300000
    ∧ (DrawAuctionTs.sendPopulatedStartDrawTransaction 300000 1
        { chainId := 10, rewardRecipient := "0xaaaa",
          minProfitThresholdUsd := 1, useFlashbots := false }
        { nativeTokenMarketRateUsd := 2500, canStartDraw := true,
          startDrawReward := 0, startDrawRewardUsd := 0, canFinishDraw := false,
          finishDrawReward := 0, finishDrawRewardUsd := 0, rngFeeEstimate := 7,
          rngFeeEstimateUsd := 0, prizePoolDrawClosesAt := 0,
          drawAuctionState := some DrawAuctionState.Start }
        { prizePoolAddress := "0xpp", drawManagerAddress := "0xdm",
          rngWitnetAddress := some "0xrw",
          rngBlockhashAddress := none }).gasLimit = 400000
    ∧ (300000 : ℕ) ≠ 850000
    ∧ (DrawAuctionTs.sendPopulatedFinishDrawTransaction 200000 1
        { chainId := 10, rewardRecipient := "0xaaaa",
          minProfitThresholdUsd := 1, useFlashbots := false }).gasLimit ≠ 800000 := by
  refine ⟨rfl, rfl, by norm_num, by decide⟩

/-- C7 amended: only the part_000 dispatcher hands the submission
collaborator fixed per-phase gas limits independent of the estimate, 850000
for startDraw and 800000 for awardDraw; the drawAuction.ts dispatcher hands
over the estimated gas limit plus 100000 in both phases. -/
theorem dispatch_gas_limits (estimatedGasLimit gasPrice : ℕ)
    (config : DrawAuctionConfig) (ctxA : DrawAuctionTs.DrawAuctionContext)
    (ctxB : PartZero.DrawAuctionContext) (contracts : DrawAuctionContracts) :
    (PartZero.sendPopulatedStartDrawTransaction gasPrice config ctxB
        contracts).gasLimit = 850000
    ∧ (PartZero.sendPopulatedAwardDrawTransaction gasPrice config).gasLimit = 800000
    ∧ (DrawAuctionTs.sendPopulatedStartDrawTransaction estimatedGasLimit
        gasPrice config ctxA contracts).gasLimit = estimatedGasLimit + 100000
    ∧ (DrawAuctionTs.sendPopulatedFinishDrawTransaction estimatedGasLimit
        gasPrice config).gasLimit = estimatedGasLimit + 100000 :=
  ⟨rfl, rfl, rfl, rfl⟩

/-- C8: one decision cycle is a pure function of the snapshot and the stubbed
collaborator responses, so two runs over identical inputs return identical
cycle results, phase classifications, profit numbers and flags in both
variants. -/
theorem cycle_deterministic (startDrawEstimate finishDrawEstimate : Option ℕ)
    (feesUsd : FeeOracle) (config : DrawAuctionConfig)
    (ctxA : DrawAuctionTs.DrawAuctionContext)
    (ctxB : PartZero.DrawAuctionContext) (rewardUsd gasCostUsd : Usd) :
    DrawAuctionTs.runDrawAuction startDrawEstimate finishDrawEstimate feesUsd
        config ctxA =
      DrawAuctionTs.runDrawAuction startDrawEstimate finishDrawEstimate feesUsd
        config ctxA
    ∧ PartZero.runDrawAuction startDrawEstimate feesUsd config ctxB =
      PartZero.runDrawAuction startDrawEstimate feesUsd config ctxB
    ∧ ctxA.drawAuctionState = ctxA.drawAuctionState
    ∧ DrawAuctionTs.calculateStartDrawProfit config ctxA gasCostUsd =
      DrawAuctionTs.calculateStartDrawProfit config ctxA gasCostUsd
    ∧ DrawAuctionTs.calculateFinishDrawProfit config rewardUsd gasCostUsd =
      DrawAuctionTs.calculateFinishDrawProfit config rewardUsd gasCostUsd
    ∧ PartZero.checkAwardDraw feesUsd config ctxB =
      PartZero.checkAwardDraw feesUsd config ctxB :=
  ⟨rfl, rfl, rfl, rfl, rfl, rfl⟩

/-- C9: the part_000 Witnet startDraw transaction attaches a native-token
value of rngFeeEstimate.mul(2) while the same variant deducts only the
single rngFeeEstimateUsd in its phase-one profit computation, and the
drawAuction.ts variant attaches exactly rngFeeEstimate, undoubled. -/
theorem witnet_value_double_vs_single_fee (config : DrawAuctionConfig)
    (ctxA : DrawAuctionTs.DrawAuctionContext)
    (ctxB : PartZero.DrawAuctionContext) (contracts : DrawAuctionContracts)
    (gasCostUsd : Usd) :
    (PartZero.buildStartDrawTxParams config ctxB contracts).value =
        ctxB.rngFeeEstimate * 2
    ∧ (PartZero.calculateStartDrawProfit config ctxB gasCostUsd = true ↔
        ctxB.startDrawFeeUsd - gasCostUsd - ctxB.rngFeeEstimateUsd >
          config.minProfitThresholdUsd)
    ∧ (DrawAuctionTs.buildRngWitnetStartDrawTxParams config ctxA
        contracts).value = ctxA.rngFeeEstimate := by
  refine ⟨rfl, ?_, rfl⟩
  simp [PartZero.calculateStartDrawProfit]

/-- C10: each transform function returns the value field of its input record
together with a params object carrying exactly the remaining fields of the
record unchanged; the source deletes the value key on a spread copy, embedded
here as construction of a fresh record, so the input record is never
modified. -/
theorem transform_tx_params_fields
    (pA : DrawAuctionTs.RngWitnetStartDrawTxParams)
    (pB : PartZero.StartDrawTxParams) :
    (DrawAuctionTs.transformRngWitnetStartDrawTxParams pA).value = pA.value
    ∧ (DrawAuctionTs.transformRngWitnetStartDrawTxParams pA).transformedTxParams =
        { rngPaymentAmount := pA.rngPaymentAmount
          drawManagerAddress := pA.drawManagerAddress
          rewardRecipient := pA.rewardRecipient }
    ∧ (PartZero.transformStartDrawTxParams pB).value = pB.value
    ∧ (PartZero.transformStartDrawTxParams pB).transformedTxParams =
        { drawManagerAddress := pB.drawManagerAddress
          rewardRecipient := pB.rewardRecipient } :=
  ⟨rfl, rfl, rfl, rfl⟩
